import Mathlib

/-!
Verification of the DFPlayer Mini MicroPython driver
(`src/dfplayer/dfplayer.py`) against its natural-language specification.

The driver's frame protocol engine is embedded shallowly:

* `send_command_frame` embeds the frame-building part of
  `DFPlayer._send_command` (lines 171-180).  Python integers are modelled
  by `Int`; Python's arithmetic right shift `>> 8` on an `int` is floor
  division by 256 (`Int.fdiv`), and `& 0xFF` on an `int` yields the
  nonnegative residue modulo 256 (`Int.emod`).
* `read_data` embeds `DFPlayer._read_data` (lines 154-169); its input is
  the list of bytes currently buffered on the UART, `uart.any()` is
  modelled by the list being nonempty and `uart.read(10)` by `List.take`.
  The three possible outcomes — the `(None, None)` return, the
  `RuntimeError("Invalid frame received")` raise, and a parsed
  `(cmd, data)` pair — are the three constructors of `ReadResult`.
* `handle_response` embeds the response-classification tail of
  `DFPlayer._send_command` (lines 195-209); each `RuntimeError` branch,
  the `return True`, and the implicit `return None` fall-through are the
  constructors of `CmdOutcome`.
* `set_volume`, `play_track` and `play_from_mp3_folder` embed the
  argument-validating wrappers; `DriverAction` separates the
  `ValueError` raise (which happens before any frame is built) from the
  `_send_command` call with its three arguments.
* `equalizer_settings_read` embeds the read-back part of the
  `equalizer_settings` getter (lines 231-234).
* `DFPlayerState` / `dfplayer_init` / `on_busy_pin_change` / `playing`
  embed the constructor, the busy-pin IRQ handler and the `playing`
  property; the `_playing` attribute is an `Option Bool`, `none` meaning
  the attribute was never assigned (reading it raises `AttributeError`).
-/

/-! ### Module-level constants (lines 9-106 of the source) -/

def DFPLAYER_RETRIES : Nat := 5
def DFPLAYER_MAX_VOLUME : Nat := 30
def DFPLAYER_MAX_FOLDER : Nat := 99
def DFPLAYER_MAX_MP3_FILE : Nat := 9999

def DFPLAYER_FRAME_SIZE : Nat := 10
def DFPLAYER_START : Nat := 0x7e
def DFPLAYER_VERSION : Nat := 0xff
def DFPLAYER_LEN : Nat := 0x06
def DFPLAYER_NO_ACK : Nat := 0x00
def DFPLAYER_ACK : Nat := 0x01
def DFPLAYER_END : Nat := 0xef

def DFPLAYER_CMD_SET_VOLUME : Nat := 0x06
def DFPLAYER_CMD_FILE : Nat := 0x0f
def DFPLAYER_CMD_PLAY_FROM_MP3 : Nat := 0x12
def DFPLAYER_CMD_GET_EQUALIZER : Nat := 0x44

def DFPLAYER_RESPONSE_ERROR : Nat := 0x40
def DFPLAYER_RESPONSE_OK : Nat := 0x41

def DFPLAYER_ERROR_BUSY : Nat := 0x00
def DFPLAYER_ERROR_FRAME : Nat := 0x01
def DFPLAYER_ERROR_FCS : Nat := 0x02
def DFPLAYER_ERROR_NO_SUCH_FILE : Nat := 0x06

/-! ### Frame encoding: `DFPlayer._send_command`, lines 171-180 -/

/-- Embeds the frame-building half of `DFPlayer._send_command`:
`none` models the `ValueError("Command must be a single byte")` raised
when `command > 0xFF`; otherwise the ten bytes written to the UART are
returned.  The Python expressions `checksum >> 8` and `checksum & 0xFF`
on the (negative) `int` value `checksum` are floor division by 256 and
the nonnegative residue modulo 256 respectively, and the final
`bytes([b & 0xFF for b in frame])` masks every entry to a byte. -/
def send_command_frame (command data_high data_low : Nat) : Option (List Nat) :=
  if command > 0xFF then
    none
  else
    let frame_check_init : Int := -((DFPLAYER_VERSION : Int) + (DFPLAYER_LEN : Int))
    let checksum : Int :=
      frame_check_init - ((command : Int) + (DFPLAYER_ACK : Int) + (data_low : Int) + (data_high : Int))
    let high_byte : Int := Int.fdiv checksum 256
    let low_byte : Int := Int.emod checksum 256
    let frame : List Int :=
      [(DFPLAYER_START : Int), (DFPLAYER_VERSION : Int), (DFPLAYER_LEN : Int),
       (command : Int), (DFPLAYER_ACK : Int), (data_high : Int), (data_low : Int),
       high_byte, low_byte, (DFPLAYER_END : Int)]
    some (frame.map (fun b => (Int.emod b 256).toNat))

/-! ### Frame parsing: `DFPlayer._read_data`, lines 154-169 -/

/-- The three possible outcomes of `DFPlayer._read_data`:
the `(None, None)` return, the `RuntimeError("Invalid frame received")`
raise, and a successfully parsed `(cmd, data)` pair. -/
inductive ReadResult where
  | noData : ReadResult
  | malformed : ReadResult
  | ok (cmd : Nat) (data : Nat) : ReadResult
deriving DecidableEq

/-- Embeds `DFPlayer._read_data`.  `rx` is the list of bytes buffered on
the UART: `uart.any()` is `rx ≠ []`, and `uart.read(10)` returns up to
ten of the buffered bytes, i.e. `rx.take 10`.
`struct.unpack(">H", buf[5:7])[0]` is `buf[5] * 256 + buf[6]`. -/
def read_data (rx : List Nat) : ReadResult :=
  if rx = [] then
    ReadResult.noData
  else
    let buf := rx.take DFPLAYER_FRAME_SIZE
    if buf.length ≠ DFPLAYER_FRAME_SIZE then
      ReadResult.noData
    else if buf.getD 0 0 = DFPLAYER_START ∧ buf.getD 1 0 = DFPLAYER_VERSION ∧
            buf.getD 2 0 = DFPLAYER_LEN ∧ buf.getD 9 0 = DFPLAYER_END then
      ReadResult.ok (buf.getD 3 0) (buf.getD 5 0 * 256 + buf.getD 6 0)
    else
      ReadResult.malformed

/-! ### Response classification: `DFPlayer._send_command`, lines 195-209 -/

/-- The possible outcomes of the response-handling tail of
`DFPlayer._send_command`: `return True`, the implicit `return None`
fall-through, the five `RuntimeError` raises for device-reported errors,
and the `RuntimeError("Invalid frame received")` propagated out of
`_read_data`. -/
inductive CmdOutcome where
  | trueResult : CmdOutcome
  | noneResult : CmdOutcome
  | errBusy : CmdOutcome
  | errFrame : CmdOutcome
  | errFcs : CmdOutcome
  | errNoFile : CmdOutcome
  | errUnknown : CmdOutcome
  | errInvalidFrame : CmdOutcome
deriving DecidableEq

/-- Embeds lines 195-209 of `DFPlayer._send_command`, as a function of
what `_read_data` produced.  When `_read_data` returned `(None, None)`,
`response_code` is `None`, which equals neither `DFPLAYER_RESPONSE_OK`
nor `DFPLAYER_RESPONSE_ERROR`, so the method falls through and returns
`None`; the same happens for any parsed code other than `0x41`/`0x40`. -/
def handle_response : ReadResult → CmdOutcome
  | ReadResult.malformed => CmdOutcome.errInvalidFrame
  | ReadResult.noData => CmdOutcome.noneResult
  | ReadResult.ok code data =>
    if code = DFPLAYER_RESPONSE_OK then
      CmdOutcome.trueResult
    else if code = DFPLAYER_RESPONSE_ERROR then
      if data = DFPLAYER_ERROR_BUSY then CmdOutcome.errBusy
      else if data = DFPLAYER_ERROR_FRAME then CmdOutcome.errFrame
      else if data = DFPLAYER_ERROR_FCS then CmdOutcome.errFcs
      else if data = DFPLAYER_ERROR_NO_SUCH_FILE then CmdOutcome.errNoFile
      else CmdOutcome.errUnknown
    else
      CmdOutcome.noneResult

/-! ### Validating wrappers: `volume` setter, `play_track`,
`play_from_mp3_folder` (lines 253-273) -/

/-- What a wrapper method does: raise `ValueError` with the given
message before any frame is built, or call
`_send_command(command, data_high, data_low)`. -/
inductive DriverAction where
  | valueError (msg : String) : DriverAction
  | send (command data_high data_low : Nat) : DriverAction
deriving DecidableEq

/-- Embeds the `volume` setter (lines 253-259).  The source computes
`int(value / 100 * DFPLAYER_MAX_VOLUME)` in binary floating point; for
every integer `value` with `0 ≤ value ≤ 100` that float computation
yields exactly `⌊value * 30 / 100⌋` (the intermediate rounding error is
far smaller than the distance of `value * 0.3` from the nearest lower
integer, and is checked to round to the exact value at the multiples of
10), which is the integer expression used here. -/
def set_volume (value : Int) : DriverAction :=
  if value < 0 ∨ value > 100 then
    DriverAction.valueError "Volume must be between 0 and 100"
  else
    DriverAction.send DFPLAYER_CMD_SET_VOLUME 0x00
      ((value * (DFPLAYER_MAX_VOLUME : Int) / 100).toNat)

/-- Embeds `DFPlayer.play_track` (lines 267-273). -/
def play_track (folder track : Int) : DriverAction :=
  if folder < 0 ∨ folder > (DFPLAYER_MAX_FOLDER : Int) then
    DriverAction.valueError "Folder number must be between 0 and 99"
  else if track < 0 ∨ track > (DFPLAYER_MAX_MP3_FILE : Int) then
    DriverAction.valueError "Track number must be between 0 and 9999"
  else
    DriverAction.send DFPLAYER_CMD_FILE folder.toNat track.toNat

/-- Embeds `DFPlayer.play_from_mp3_folder` (lines 261-265).  The call
`self._send_command(0x12, track_number & 0xFF, track_number >> 8)`
passes the LOW byte of the track number as the `data_high` argument and
the HIGH byte as the `data_low` argument. -/
def play_from_mp3_folder (track_number : Int) : DriverAction :=
  if track_number < 0 ∨ track_number > (DFPLAYER_MAX_MP3_FILE : Int) then
    DriverAction.valueError "Track number must be between 0 and 9999"
  else
    DriverAction.send DFPLAYER_CMD_PLAY_FROM_MP3
      ((Int.emod track_number 256).toNat) ((Int.fdiv track_number 256).toNat)

/-! ### Equalizer getter: `equalizer_settings`, lines 227-234 -/

/-- Embeds the read-back part of the `equalizer_settings` getter
(lines 231-234), which runs after `_send_command(0x44)`.
`rx` is the list of bytes buffered on the UART when the getter calls
`_read_data` itself.  A `RuntimeError` raised by `_read_data`
propagates; a `(None, None)` result leaves `response_code = None`,
which differs from `0x44`, so `RuntimeError("Invalid response
received")` is raised. -/
def equalizer_settings_read (rx : List Nat) : Except String Nat :=
  match read_data rx with
  | ReadResult.malformed => Except.error "Invalid frame received"
  | ReadResult.noData => Except.error "Invalid response received"
  | ReadResult.ok code data =>
    if code ≠ DFPLAYER_CMD_GET_EQUALIZER then
      Except.error "Invalid response received"
    else
      Except.ok data

/-! ### Constructor, busy-pin IRQ handler and `playing` property
(lines 135-152) -/

/-- The attribute state of a `DFPlayer` instance relevant to the
`playing` property: whether a busy pin was passed to the constructor,
and the `_playing` attribute (`none` models the attribute never having
been assigned, so that reading it raises `AttributeError`). -/
structure DFPlayerState where
  busy_pin : Bool
  playing_flag : Option Bool
deriving DecidableEq

/-- Embeds `DFPlayer.__init__` (lines 135-141): the constructor stores
the busy pin and registers the IRQ handler but never assigns
`self._playing`. -/
def dfplayer_init (busy_pin : Bool) : DFPlayerState :=
  { busy_pin := busy_pin, playing_flag := none }

/-- Embeds `DFPlayer._on_busy_pin_change` (lines 143-145):
`self._playing = pin.value() == 0`. -/
def on_busy_pin_change (s : DFPlayerState) (pin_value : Nat) : DFPlayerState :=
  { s with playing_flag := some (pin_value == 0) }

/-- The possible outcomes of reading the `playing` property:
an `AttributeError` because `self._playing` was never assigned, the
stored flag, or the fallback that issues a status query over the UART. -/
inductive PlayingResult where
  | attributeError : PlayingResult
  | value (b : Bool) : PlayingResult
  | statusQuery : PlayingResult
deriving DecidableEq

/-- Embeds the `playing` property (lines 147-152). -/
def playing (s : DFPlayerState) : PlayingResult :=
  if s.busy_pin then
    match s.playing_flag with
    | none => PlayingResult.attributeError
    | some b => PlayingResult.value b
  else
    PlayingResult.statusQuery

/-! ### Helper lemmas -/

lemma fdiv_eq_div_256 (a : Int) : Int.fdiv a 256 = a / 256 :=
  Int.fdiv_eq_ediv a (by norm_num)

lemma emod_eq_mod (a b : Int) : Int.emod a b = a % b := rfl

/-- The ten bytes produced by `_send_command` for in-range arguments:
the seven fixed/payload bytes pass through the `& 0xFF` mask unchanged,
and the checksum bytes are the big-endian bytes of `2^16 - S`, where
`S = 0xFF + 0x06 + command + 0x01 + data_high + data_low`. -/
lemma send_command_frame_eq (c dh dl : Nat)
    (hc : c ≤ 0xff) (hh : dh ≤ 0xff) (hl : dl ≤ 0xff) :
    send_command_frame c dh dl =
      some [0x7e, 0xff, 0x06, c, 0x01, dh, dl,
            (65536 - (262 + c + dh + dl)) / 256,
            (65536 - (262 + c + dh + dl)) % 256, 0xef] := by
  unfold send_command_frame
  rw [if_neg (by omega)]
  simp only [List.map_cons, List.map_nil, Option.some.injEq, fdiv_eq_div_256,
    emod_eq_mod, DFPLAYER_START, DFPLAYER_VERSION, DFPLAYER_LEN, DFPLAYER_ACK,
    DFPLAYER_END, List.cons.injEq, and_true]
  refine ⟨by decide, by decide, by decide, by omega, by decide, by omega, by omega,
    ?_, ?_, by decide⟩
  · omega
  · omega

/-- Closed form of `read_data`: fewer than ten buffered bytes (including
none at all) yield the `(None, None)` return; with at least ten bytes the
four constant fields decide between a parsed pair and the
`RuntimeError`. -/
lemma read_data_eq (rx : List Nat) :
    read_data rx =
      if rx.length < DFPLAYER_FRAME_SIZE then ReadResult.noData
      else if rx.getD 0 0 = DFPLAYER_START ∧ rx.getD 1 0 = DFPLAYER_VERSION ∧
              rx.getD 2 0 = DFPLAYER_LEN ∧ rx.getD 9 0 = DFPLAYER_END then
        ReadResult.ok (rx.getD 3 0) (rx.getD 5 0 * 256 + rx.getD 6 0)
      else
        ReadResult.malformed := by
  by_cases hnil : rx = []
  · subst hnil
    simp [read_data, DFPLAYER_FRAME_SIZE]
  · by_cases hlen : rx.length < DFPLAYER_FRAME_SIZE
    · rw [if_pos hlen]
      unfold read_data
      rw [if_neg hnil]
      rw [if_pos (by simp only [List.length_take, ne_eq]; omega)]
    · rw [if_neg hlen]
      have hg : ∀ i, i < DFPLAYER_FRAME_SIZE →
          (rx.take DFPLAYER_FRAME_SIZE).getD i 0 = rx.getD i 0 := by
        intro i hi
        simp only [List.getD_eq_getElem?_getD, List.getElem?_take_of_lt hi]
      unfold read_data
      rw [if_neg hnil]
      rw [if_neg (by simp only [List.length_take, ne_eq]; omega)]
      rw [hg 0 (by norm_num [DFPLAYER_FRAME_SIZE]),
          hg 1 (by norm_num [DFPLAYER_FRAME_SIZE]),
          hg 2 (by norm_num [DFPLAYER_FRAME_SIZE]),
          hg 9 (by norm_num [DFPLAYER_FRAME_SIZE]),
          hg 3 (by norm_num [DFPLAYER_FRAME_SIZE]),
          hg 5 (by norm_num [DFPLAYER_FRAME_SIZE]),
          hg 6 (by norm_num [DFPLAYER_FRAME_SIZE])]

/-! ### C1 — checksum bytes -/

/-- C1: for every command byte and data bytes, the checksum bytes at
positions 7 and 8 of the encoded frame are the big-endian 16-bit
two's-complement negation of
`VERSION + LENGTH + command + ACK + data_high + data_low` modulo 2^16,
and the unsigned 16-bit wraparound sum of the six checksummed fields
plus the encoded checksum is zero. -/
theorem checksum_is_twos_complement (c dh dl : Nat)
    (hc : c ≤ 0xff) (hh : dh ≤ 0xff) (hl : dl ≤ 0xff) :
    ∃ f, send_command_frame c dh dl = some f ∧
      f.getD 7 0 =
        ((2 ^ 16 - (DFPLAYER_VERSION + DFPLAYER_LEN + c + DFPLAYER_ACK + dh + dl) % 2 ^ 16)
          % 2 ^ 16) / 2 ^ 8 ∧
      f.getD 8 0 =
        ((2 ^ 16 - (DFPLAYER_VERSION + DFPLAYER_LEN + c + DFPLAYER_ACK + dh + dl) % 2 ^ 16)
          % 2 ^ 16) % 2 ^ 8 ∧
      ((DFPLAYER_VERSION + DFPLAYER_LEN + c + DFPLAYER_ACK + dh + dl)
        + f.getD 7 0 * 2 ^ 8 + f.getD 8 0) % 2 ^ 16 = 0 := by
  refine ⟨_, send_command_frame_eq c dh dl hc hh hl, ?_, ?_, ?_⟩ <;>
    simp only [List.getD_cons_succ, List.getD_cons_zero, DFPLAYER_VERSION,
      DFPLAYER_LEN, DFPLAYER_ACK] <;>
    omega

/-- C1 witness at `command = 0x12`, `data_high = 0x01`, `data_low = 0x02`. -/
theorem checksum_is_twos_complement_witness :
    (0x12 ≤ 0xff ∧ 0x01 ≤ 0xff ∧ 0x02 ≤ 0xff) ∧
    ∃ f, send_command_frame 0x12 0x01 0x02 = some f ∧
      f.getD 7 0 =
        ((2 ^ 16 - (DFPLAYER_VERSION + DFPLAYER_LEN + 0x12 + DFPLAYER_ACK + 0x01 + 0x02) % 2 ^ 16)
          % 2 ^ 16) / 2 ^ 8 ∧
      f.getD 8 0 =
        ((2 ^ 16 - (DFPLAYER_VERSION + DFPLAYER_LEN + 0x12 + DFPLAYER_ACK + 0x01 + 0x02) % 2 ^ 16)
          % 2 ^ 16) % 2 ^ 8 ∧
      ((DFPLAYER_VERSION + DFPLAYER_LEN + 0x12 + DFPLAYER_ACK + 0x01 + 0x02)
        + f.getD 7 0 * 2 ^ 8 + f.getD 8 0) % 2 ^ 16 = 0 :=
  ⟨⟨by decide, by decide, by decide⟩,
    checksum_is_twos_complement 0x12 0x01 0x02 (by decide) (by decide) (by decide)⟩

/-! ### C2 — frame layout -/

/-- C2: for every command byte and data bytes, the encoded frame is
exactly ten bytes, with `START = 0x7E` at byte 0, `VERSION = 0xFF` at
byte 1, `LENGTH = 0x06` at byte 2, `END = 0xEF` at byte 9, the command
at byte 3, the data pair at bytes 5 and 6, and the ACK flag at byte 4
always `0x01` (acknowledgement required); the no-ACK value `0x00` is
never emitted. -/
theorem frame_layout (c dh dl : Nat)
    (hc : c ≤ 0xff) (hh : dh ≤ 0xff) (hl : dl ≤ 0xff) :
    ∃ f, send_command_frame c dh dl = some f ∧
      f.length = DFPLAYER_FRAME_SIZE ∧
      f.getD 0 0 = DFPLAYER_START ∧ f.getD 1 0 = DFPLAYER_VERSION ∧
      f.getD 2 0 = DFPLAYER_LEN ∧ f.getD 9 0 = DFPLAYER_END ∧
      f.getD 3 0 = c ∧ f.getD 5 0 = dh ∧ f.getD 6 0 = dl ∧
      f.getD 4 0 = DFPLAYER_ACK ∧ DFPLAYER_ACK = 0x01 ∧
      f.getD 4 0 ≠ DFPLAYER_NO_ACK := by
  refine ⟨_, send_command_frame_eq c dh dl hc hh hl, ?_⟩
  simp [List.getD_cons_succ, List.getD_cons_zero, DFPLAYER_FRAME_SIZE,
    DFPLAYER_START, DFPLAYER_VERSION, DFPLAYER_LEN, DFPLAYER_END,
    DFPLAYER_ACK, DFPLAYER_NO_ACK]

/-- C2 witness at `command = 0x06`, `data_high = 0x00`,
`data_low = 0x0f` (the "set volume to 50%" frame). -/
theorem frame_layout_witness :
    (0x06 ≤ 0xff ∧ 0x00 ≤ 0xff ∧ 0x0f ≤ 0xff) ∧
    ∃ f, send_command_frame 0x06 0x00 0x0f = some f ∧
      f.length = DFPLAYER_FRAME_SIZE ∧
      f.getD 0 0 = DFPLAYER_START ∧ f.getD 1 0 = DFPLAYER_VERSION ∧
      f.getD 2 0 = DFPLAYER_LEN ∧ f.getD 9 0 = DFPLAYER_END ∧
      f.getD 3 0 = 0x06 ∧ f.getD 5 0 = 0x00 ∧ f.getD 6 0 = 0x0f ∧
      f.getD 4 0 = DFPLAYER_ACK ∧ DFPLAYER_ACK = 0x01 ∧
      f.getD 4 0 ≠ DFPLAYER_NO_ACK :=
  ⟨⟨by decide, by decide, by decide⟩,
    frame_layout 0x06 0x00 0x0f (by decide) (by decide) (by decide)⟩

/-! ### C3 — encode/parse round trip -/

/-- C3: parsing the ten bytes produced by the encoder yields back the
original command byte and the big-endian payload
`data_high * 256 + data_low`. -/
theorem encode_parse_roundtrip (c dh dl : Nat)
    (hc : c ≤ 0xff) (hh : dh ≤ 0xff) (hl : dl ≤ 0xff) :
    ∃ f, send_command_frame c dh dl = some f ∧
      read_data f = ReadResult.ok c (dh * 256 + dl) := by
  refine ⟨_, send_command_frame_eq c dh dl hc hh hl, ?_⟩
  rw [read_data_eq]
  simp only [List.length_cons, List.length_nil, List.getD_cons_succ,
    List.getD_cons_zero]
  rw [if_neg (by norm_num [DFPLAYER_FRAME_SIZE]), if_pos (by decide)]

/-- C3 witness at `command = 0x0d`, `data_high = 0x01`,
`data_low = 0x2c`. -/
theorem encode_parse_roundtrip_witness :
    (0x0d ≤ 0xff ∧ 0x01 ≤ 0xff ∧ 0x2c ≤ 0xff) ∧
    ∃ f, send_command_frame 0x0d 0x01 0x2c = some f ∧
      read_data f = ReadResult.ok 0x0d (0x01 * 256 + 0x2c) :=
  ⟨⟨by decide, by decide, by decide⟩,
    encode_parse_roundtrip 0x0d 0x01 0x2c (by decide) (by decide) (by decide)⟩

/-! ### C4 — parser outcome classification -/

/-- C4 counterexample: a single buffered byte (bytes WERE available,
but the read did not total ten bytes) makes `_read_data` return
`(None, None)` — exactly the "no data" result — instead of signalling a
malformed frame, so "no data" does not hold exactly when zero bytes
were available and a short read is not classified as malformed. -/
theorem short_read_is_no_data_counterexample :
    ([0x7e] : List Nat) ≠ [] ∧
    ([0x7e] : List Nat).length ≠ DFPLAYER_FRAME_SIZE ∧
    read_data [0x7e] = ReadResult.noData ∧
    ReadResult.noData ≠ ReadResult.malformed := by decide

/-- C4 (amended): `_read_data` returns "no data" exactly when FEWER THAN
ten bytes were buffered (zero bytes or a short read); it raises the
malformed-frame error exactly when at least ten bytes were read and one
of the four constant fields does not match (e.g. a first byte `0x7D`);
otherwise it returns `code = byte 3` and `data = byte5 * 256 + byte6`,
ignoring the inbound checksum bytes. -/
theorem read_data_classification (rx : List Nat) :
    (read_data rx = ReadResult.noData ↔ rx.length < DFPLAYER_FRAME_SIZE) ∧
    (read_data rx = ReadResult.malformed ↔
      (DFPLAYER_FRAME_SIZE ≤ rx.length ∧
        ¬(rx.getD 0 0 = DFPLAYER_START ∧ rx.getD 1 0 = DFPLAYER_VERSION ∧
          rx.getD 2 0 = DFPLAYER_LEN ∧ rx.getD 9 0 = DFPLAYER_END))) ∧
    (DFPLAYER_FRAME_SIZE ≤ rx.length →
      rx.getD 0 0 = DFPLAYER_START → rx.getD 1 0 = DFPLAYER_VERSION →
      rx.getD 2 0 = DFPLAYER_LEN → rx.getD 9 0 = DFPLAYER_END →
      read_data rx = ReadResult.ok (rx.getD 3 0)
        (rx.getD 5 0 * 256 + rx.getD 6 0)) := by
  rw [read_data_eq]
  by_cases hlen : rx.length < DFPLAYER_FRAME_SIZE
  · rw [if_pos hlen]
    refine ⟨by simp [hlen], by simp [hlen], fun h => absurd h (by omega)⟩
  · rw [if_neg hlen]
    by_cases hconst : rx.getD 0 0 = DFPLAYER_START ∧ rx.getD 1 0 = DFPLAYER_VERSION ∧
        rx.getD 2 0 = DFPLAYER_LEN ∧ rx.getD 9 0 = DFPLAYER_END
    · rw [if_pos hconst]
      exact ⟨by simp [hlen],
        ⟨fun h => ReadResult.noConfusion h, fun h => absurd hconst h.2⟩,
        fun _ _ _ _ _ => rfl⟩
    · rw [if_neg hconst]
      exact ⟨by simp [hlen],
        ⟨fun _ => ⟨by omega, hconst⟩, fun _ => rfl⟩,
        fun _ h0 h1 h2 h9 => absurd ⟨h0, h1, h2, h9⟩ hconst⟩

/-- C4 witness: a well-formed ten-byte status reply parses to its code
and big-endian data, a ten-byte buffer whose first byte is `0x7D` is
malformed, and an empty buffer is "no data". -/
theorem read_data_classification_witness :
    read_data [0x7e, 0xff, 0x06, 0x42, 0x00, 0x00, 0x01, 0xfe, 0xb7, 0xef] =
      ReadResult.ok 0x42 0x01 ∧
    read_data [0x7d, 0xff, 0x06, 0x42, 0x00, 0x00, 0x01, 0xfe, 0xb7, 0xef] =
      ReadResult.malformed ∧
    read_data [] = ReadResult.noData :=
  ⟨(read_data_classification
        [0x7e, 0xff, 0x06, 0x42, 0x00, 0x00, 0x01, 0xfe, 0xb7, 0xef]).2.2
      (by decide) (by decide) (by decide) (by decide) (by decide),
    ((read_data_classification
        [0x7d, 0xff, 0x06, 0x42, 0x00, 0x00, 0x01, 0xfe, 0xb7, 0xef]).2.1).mpr
      (by decide),
    ((read_data_classification ([] : List Nat)).1).mpr (by decide)⟩

/-! ### C5 — response classification after a command -/

/-- C5 counterexample: the asynchronous-notification code `0x3A`
(storage inserted) read back after a command matches neither `0x41` nor
`0x40` in `_send_command`, so the method falls through and returns
`None` — the very same outcome as when no response arrived at all — and
no protocol-violation error is raised. -/
theorem notification_code_silently_ignored :
    handle_response (ReadResult.ok 0x3a 0x01) = CmdOutcome.noneResult ∧
    handle_response (ReadResult.ok 0x3a 0x01) = handle_response ReadResult.noData := by
  decide

/-- C5 (amended): after sending a command, response code `0x41` yields
success and code `0x40` yields a device error discriminated by data
(`0x00` busy, `0x01` incomplete frame, `0x02` checksum mismatch, `0x06`
no such file, anything else a generic unknown error); but any other
code — including notification codes in the `0x3_` range and the awaited
query code — makes `_send_command` return `None`, silently ignoring it
rather than surfacing a protocol-violation error. -/
theorem send_command_response_classification (code data : Nat) :
    handle_response (ReadResult.ok 0x41 data) = CmdOutcome.trueResult ∧
    handle_response (ReadResult.ok 0x40 0x00) = CmdOutcome.errBusy ∧
    handle_response (ReadResult.ok 0x40 0x01) = CmdOutcome.errFrame ∧
    handle_response (ReadResult.ok 0x40 0x02) = CmdOutcome.errFcs ∧
    handle_response (ReadResult.ok 0x40 0x06) = CmdOutcome.errNoFile ∧
    (data ≠ 0x00 → data ≠ 0x01 → data ≠ 0x02 → data ≠ 0x06 →
      handle_response (ReadResult.ok 0x40 data) = CmdOutcome.errUnknown) ∧
    (code ≠ 0x41 → code ≠ 0x40 →
      handle_response (ReadResult.ok code data) = CmdOutcome.noneResult) := by
  refine ⟨rfl, rfl, rfl, rfl, rfl, ?_, ?_⟩
  · intro h0 h1 h2 h6
    simp [handle_response, DFPLAYER_RESPONSE_OK, DFPLAYER_RESPONSE_ERROR,
      DFPLAYER_ERROR_BUSY, DFPLAYER_ERROR_FRAME, DFPLAYER_ERROR_FCS,
      DFPLAYER_ERROR_NO_SUCH_FILE, h0, h1, h2, h6]
  · intro h41 h40
    simp [handle_response, DFPLAYER_RESPONSE_OK, DFPLAYER_RESPONSE_ERROR,
      h41, h40]

/-- C5 witness at `code = 0x3f` (device-ready notification) and
`data = 0x03`. -/
theorem send_command_response_classification_witness :
    handle_response (ReadResult.ok 0x40 0x03) = CmdOutcome.errUnknown ∧
    handle_response (ReadResult.ok 0x3f 0x03) = CmdOutcome.noneResult :=
  ⟨(send_command_response_classification 0x3f 0x03).2.2.2.2.2.1
      (by decide) (by decide) (by decide) (by decide),
    (send_command_response_classification 0x3f 0x03).2.2.2.2.2.2
      (by decide) (by decide)⟩

/-! ### C6 — retry budget -/

/-- C6: the retry budget `DFPLAYER_RETRIES = 5` is defined, but when no
response bytes arrive within the settle window `_send_command` performs
its single `_read_data` call, gets `(None, None)` and simply returns
`None`: there is no retry loop and no timeout failure is ever surfaced
to the caller. -/
theorem retries_defined_but_timeout_swallowed :
    DFPLAYER_RETRIES = 5 ∧
    read_data [] = ReadResult.noData ∧
    handle_response (read_data []) = CmdOutcome.noneResult := by decide

/-! ### C7 — argument validation before I/O -/

/-- C7: volume 0 maps to device level 0 and volume 100 to level 30
(sent with command `0x06`); EVERY volume value outside 0-100 (negative
or above 100, e.g. 101) raises the `ValueError`, so no `_send_command`
call (hence no frame and no byte on the transport) happens; `play_track`
accepts folder 99 with track 9999 and rejects folder 100 and track
10000 with the `ValueError` before any I/O. -/
theorem validation_precedes_io :
    DFPLAYER_CMD_SET_VOLUME = 0x06 ∧
    set_volume 0 = DriverAction.send DFPLAYER_CMD_SET_VOLUME 0x00 0 ∧
    set_volume 100 = DriverAction.send DFPLAYER_CMD_SET_VOLUME 0x00 30 ∧
    (∀ v : Int, v < 0 ∨ v > 100 →
      set_volume v = DriverAction.valueError "Volume must be between 0 and 100") ∧
    play_track 99 9999 = DriverAction.send DFPLAYER_CMD_FILE 99 9999 ∧
    play_track 100 1 = DriverAction.valueError "Folder number must be between 0 and 99" ∧
    play_track 1 10000 = DriverAction.valueError "Track number must be between 0 and 9999" := by
  refine ⟨rfl, rfl, rfl, fun v hv => ?_, rfl, rfl, rfl⟩
  unfold set_volume
  rw [if_pos hv]

/-- C7 witness: the out-of-range clause applied at volume 101 and at
the negative volume -5. -/
theorem validation_precedes_io_witness :
    ((101 : Int) < 0 ∨ (101 : Int) > 100) ∧
    ((-5 : Int) < 0 ∨ (-5 : Int) > 100) ∧
    set_volume 101 = DriverAction.valueError "Volume must be between 0 and 100" ∧
    set_volume (-5) = DriverAction.valueError "Volume must be between 0 and 100" :=
  ⟨Or.inr (by decide), Or.inl (by decide),
    validation_precedes_io.2.2.2.1 101 (Or.inr (by decide)),
    validation_precedes_io.2.2.2.1 (-5) (Or.inl (by decide))⟩

/-! ### C8 — equalizer query read-back -/

/-- C8: after `_send_command(0x44)`, when the frame the getter reads
back parses to code `0x44`, the getter returns the frame's 16-bit data
field; when the parsed code differs from `0x44` it raises
`RuntimeError("Invalid response received")` instead of returning a
value. -/
theorem equalizer_query_readback (rx : List Nat) (code data : Nat)
    (h : read_data rx = ReadResult.ok code data) :
    (code = DFPLAYER_CMD_GET_EQUALIZER →
      equalizer_settings_read rx = Except.ok data) ∧
    (code ≠ DFPLAYER_CMD_GET_EQUALIZER →
      equalizer_settings_read rx = Except.error "Invalid response received") := by
  unfold equalizer_settings_read
  rw [h]
  refine ⟨fun hc => ?_, fun hc => ?_⟩
  · simp [hc]
  · simp [hc]

/-- C8 witness: a well-formed reply with code `0x44` and data 2 (the
equalizer set to ROCK) yields the value 2, and the same frame carrying
code `0x43` instead raises the invalid-response error. -/
theorem equalizer_query_readback_witness :
    equalizer_settings_read
        [0x7e, 0xff, 0x06, 0x44, 0x00, 0x00, 0x02, 0xfe, 0xb4, 0xef] =
      Except.ok 2 ∧
    equalizer_settings_read
        [0x7e, 0xff, 0x06, 0x43, 0x00, 0x00, 0x02, 0xfe, 0xb5, 0xef] =
      Except.error "Invalid response received" :=
  ⟨(equalizer_query_readback
        [0x7e, 0xff, 0x06, 0x44, 0x00, 0x00, 0x02, 0xfe, 0xb4, 0xef]
        0x44 0x02 (by decide)).1 rfl,
    (equalizer_query_readback
        [0x7e, 0xff, 0x06, 0x43, 0x00, 0x00, 0x02, 0xfe, 0xb5, 0xef]
        0x43 0x02 (by decide)).2 (by decide)⟩

/-! ### C9 — swapped payload bytes in `play_from_mp3_folder` -/

/-- C9: for every track number `0 ≤ t ≤ 9999`, `play_from_mp3_folder`
sends command `0x12` with the LOW byte of `t` passed as the `data_high`
argument and the HIGH byte as the `data_low` argument, so that frame
byte 5 (the position named `DATA_HIGH`) carries `t & 0xFF` and frame
byte 6 (`DATA_LOW`) carries `t >> 8`. -/
theorem mp3_folder_payload_byte_order (t : Int) (h0 : 0 ≤ t) (h1 : t ≤ 9999) :
    ∃ f, play_from_mp3_folder t =
        DriverAction.send DFPLAYER_CMD_PLAY_FROM_MP3 (t.toNat % 256) (t.toNat / 256) ∧
      send_command_frame DFPLAYER_CMD_PLAY_FROM_MP3 (t.toNat % 256) (t.toNat / 256) =
        some f ∧
      f.getD 3 0 = 0x12 ∧ f.getD 5 0 = t.toNat % 256 ∧ f.getD 6 0 = t.toNat / 256 := by
  have harg : play_from_mp3_folder t =
      DriverAction.send DFPLAYER_CMD_PLAY_FROM_MP3 (t.toNat % 256) (t.toNat / 256) := by
    unfold play_from_mp3_folder
    rw [if_neg (by simp only [DFPLAYER_MAX_MP3_FILE]; omega)]
    rw [emod_eq_mod, fdiv_eq_div_256]
    congr 1 <;> omega
  refine ⟨_, harg,
    send_command_frame_eq DFPLAYER_CMD_PLAY_FROM_MP3 (t.toNat % 256) (t.toNat / 256)
      (by decide) (by omega) (by omega), ?_, ?_, ?_⟩ <;>
    simp [List.getD_cons_succ, List.getD_cons_zero, DFPLAYER_CMD_PLAY_FROM_MP3]

/-- C9 witness at `t = 300`: the low byte `44 = 300 & 0xFF` lands at
frame byte 5 and the high byte `1 = 300 >> 8` at frame byte 6. -/
theorem mp3_folder_payload_byte_order_witness :
    (0 ≤ (300 : Int) ∧ (300 : Int) ≤ 9999) ∧
    ∃ f, play_from_mp3_folder 300 =
        DriverAction.send DFPLAYER_CMD_PLAY_FROM_MP3 ((300 : Int).toNat % 256)
          ((300 : Int).toNat / 256) ∧
      send_command_frame DFPLAYER_CMD_PLAY_FROM_MP3 ((300 : Int).toNat % 256)
          ((300 : Int).toNat / 256) = some f ∧
      f.getD 3 0 = 0x12 ∧ f.getD 5 0 = (300 : Int).toNat % 256 ∧
      f.getD 6 0 = (300 : Int).toNat / 256 :=
  ⟨⟨by decide, by decide⟩,
    mp3_folder_payload_byte_order 300 (by decide) (by decide)⟩

/-! ### C10 — `_playing` is unset until the first busy-pin edge -/

/-- C10: constructing the driver with a busy pin leaves the `_playing`
attribute unassigned (it is first assigned inside the IRQ handler
`_on_busy_pin_change`), so reading the `playing` property after
construction but before any busy-pin edge raises `AttributeError`
rather than returning a boolean; after an edge the property returns the
flag recorded by the handler. -/
theorem playing_unset_before_first_edge :
    (dfplayer_init true).playing_flag = none ∧
    playing (dfplayer_init true) = PlayingResult.attributeError ∧
    (∀ v, playing (on_busy_pin_change (dfplayer_init true) v) =
      PlayingResult.value (v == 0)) :=
  ⟨rfl, rfl, fun _ => rfl⟩
